import Mathlib

/-!
Shallow embedding of the batch invoice-download engine
(`arg_txt_downloader`): retrying item processor, batch runner,
task planner, execution-log construction, log consolidation,
upload/download correlation, provider-name normalization and
session-expiry computation, with theorems about their behaviour.
-/

namespace ArgTxt

/-- Mirror of `DownloadResult` (src/src/scraper/base_scraper.py):
one record per invoice download attempt sequence. The Python
`timestamp` field (a wall-clock string) is omitted: no modelled
operation reads it. -/
structure DownloadResult where
  invoice_number : String
  success : Bool
  file_path : Option String := none
  error_message : Option String := none
  retries : Nat := 0
deriving DecidableEq, Repr

/-- Outcome of one call to the capability `download_invoice` inside
`_process_single_invoice`: the Python call either raises an exception
or returns a `DownloadResult`. -/
inductive AttemptOutcome where
  | raises (msg : String)
  | returns (r : DownloadResult)
deriving DecidableEq

/-- An attempt counts as failed when it raised, or returned a result
with `success == False` (both branches fall through to the next
iteration of the retry loop in `_process_single_invoice`). -/
def attemptFails : AttemptOutcome → Bool
  | .raises _ => true
  | .returns r => !r.success

/-- Error message recorded as `last_error` by the failed attempt. -/
def outcomeError : AttemptOutcome → Option String
  | .raises msg => some msg
  | .returns r => r.error_message

/-- Result built by `_process_single_invoice` after the `for attempt
in range(max_retries)` loop exhausts all attempts. -/
def exhaustedResult (invoice_number : String) (max_retries : Nat)
    (last_error : Option String) : DownloadResult :=
  { invoice_number := invoice_number
    success := false
    error_message := some ("Falló después de " ++ toString max_retries
      ++ " intentos: " ++ (last_error.getD "None"))
    retries := max_retries }

/-- The retry loop of `_process_single_invoice`
(src/src/scraper/base_scraper.py, lines 210-250). `downloadInvoice i`
is the outcome of `self.download_invoice` on attempt index `i`
(0-based, as in `for attempt in range(max_retries)`); `fuel` is the
number of attempts still available, `attempt` the current 0-based
index, `last_error` the running `last_error` variable. On a returned
result the code first sets `result.retries = attempt` and returns it
iff `result.success`. -/
def attemptLoop (downloadInvoice : Nat → AttemptOutcome)
    (invoice_number : String) (max_retries : Nat) :
    Nat → Nat → Option String → DownloadResult
  | 0, _, last_error => exhaustedResult invoice_number max_retries last_error
  | fuel + 1, attempt, last_error =>
    match downloadInvoice attempt with
    | .raises msg =>
        attemptLoop downloadInvoice invoice_number max_retries
          fuel (attempt + 1) (some msg)
    | .returns r =>
        if r.success then { r with retries := attempt }
        else attemptLoop downloadInvoice invoice_number max_retries
          fuel (attempt + 1) r.error_message

/-- `_process_single_invoice(invoice_number, max_retries)`: run the
retry loop from attempt 0 with all `max_retries` attempts available
and `last_error = None`. -/
def processSingleInvoice (downloadInvoice : Nat → AttemptOutcome)
    (invoice_number : String) (max_retries : Nat) : DownloadResult :=
  attemptLoop downloadInvoice invoice_number max_retries max_retries 0 none

/-- Invariant of the retry loop, proved by induction on the remaining
fuel: provided `attempt + fuel = max_retries`, the returned result
succeeds only at an attempt index below `max_retries` whose strictly
earlier attempts (from `attempt` on) all failed, and a returned
failure always carries `retries = max_retries`. -/
theorem attemptLoop_spec (dl : Nat → AttemptOutcome) (inv : String)
    (m : Nat) :
    ∀ fuel attempt last_error, attempt + fuel = m →
      (((attemptLoop dl inv m fuel attempt last_error).success = true →
        attempt ≤ (attemptLoop dl inv m fuel attempt last_error).retries
        ∧ (attemptLoop dl inv m fuel attempt last_error).retries < m
        ∧ (∀ i, attempt ≤ i →
            i < (attemptLoop dl inv m fuel attempt last_error).retries →
            attemptFails (dl i) = true)
        ∧ attemptFails
            (dl (attemptLoop dl inv m fuel attempt last_error).retries)
            = false)
      ∧ ((attemptLoop dl inv m fuel attempt last_error).success = false →
        (attemptLoop dl inv m fuel attempt last_error).retries = m)) := by
  intro fuel
  induction fuel with
  | zero =>
    intro attempt last_error _
    constructor
    · intro hs
      simp [attemptLoop, exhaustedResult] at hs
    · intro _
      simp [attemptLoop, exhaustedResult]
  | succ n ih =>
    intro attempt last_error hm
    have hm' : (attempt + 1) + n = m := by omega
    cases hdl : dl attempt with
    | raises msg =>
      have hunf : attemptLoop dl inv m (n + 1) attempt last_error
          = attemptLoop dl inv m n (attempt + 1) (some msg) := by
        simp only [attemptLoop, hdl]
      rw [hunf]
      have h := ih (attempt + 1) (some msg) hm'
      refine ⟨fun hs => ?_, fun hs => h.2 hs⟩
      obtain ⟨h1, h2, h3, h4⟩ := h.1 hs
      refine ⟨by omega, h2, ?_, h4⟩
      intro i hi hlt
      rcases Nat.eq_or_lt_of_le hi with rfl | hgt
      · simp [attemptFails, hdl]
      · exact h3 i hgt hlt
    | returns r =>
      cases hrs : r.success with
      | true =>
        have hunf : attemptLoop dl inv m (n + 1) attempt last_error
            = { r with retries := attempt } := by
          simp only [attemptLoop, hdl]
          rw [if_pos hrs]
        rw [hunf]
        have hret : ({ r with retries := attempt } : DownloadResult).retries
            = attempt := rfl
        have hsuc : ({ r with retries := attempt } : DownloadResult).success
            = r.success := rfl
        constructor
        · intro _
          rw [hret]
          refine ⟨Nat.le_refl _, by omega, ?_, ?_⟩
          · intro i hi hlt
            omega
          · simp [attemptFails, hdl, hrs]
        · intro hs
          rw [hsuc, hrs] at hs
          exact absurd hs (by simp)
      | false =>
        have hunf : attemptLoop dl inv m (n + 1) attempt last_error
            = attemptLoop dl inv m n (attempt + 1) r.error_message := by
          simp only [attemptLoop, hdl]
          rw [if_neg (by simp [hrs])]
        rw [hunf]
        have h := ih (attempt + 1) r.error_message hm'
        refine ⟨fun hs => ?_, fun hs => h.2 hs⟩
        obtain ⟨h1, h2, h3, h4⟩ := h.1 hs
        refine ⟨by omega, h2, ?_, h4⟩
        intro i hi hlt
        rcases Nat.eq_or_lt_of_le hi with rfl | hgt
        · simp [attemptFails, hdl, hrs]
        · exact h3 i hgt hlt

/-- C1: for every invoice processed with retry bound `max_retries`,
the result of `_process_single_invoice` has `retries ≤ max_retries`;
on success, `retries` equals the number of failed attempts preceding
the successful attempt (all `retries` earlier attempts failed and the
attempt at index `retries` did not); on exhaustion the failed result
carries `retries = max_retries`. -/
theorem process_single_invoice_retries (dl : Nat → AttemptOutcome)
    (inv : String) (m : Nat) :
    (processSingleInvoice dl inv m).retries ≤ m
    ∧ ((processSingleInvoice dl inv m).success = true →
        (List.range (processSingleInvoice dl inv m).retries).countP
            (fun i => attemptFails (dl i))
          = (processSingleInvoice dl inv m).retries
        ∧ attemptFails (dl (processSingleInvoice dl inv m).retries) = false)
    ∧ ((processSingleInvoice dl inv m).success = false →
        (processSingleInvoice dl inv m).retries = m) := by
  have h := attemptLoop_spec dl inv m m 0 none (by omega)
  unfold processSingleInvoice
  refine ⟨?_, fun hs => ?_, fun hs => h.2 hs⟩
  · cases hsuc : (attemptLoop dl inv m m 0 none).success with
    | true => exact Nat.le_of_lt (h.1 hsuc).2.1
    | false => exact Nat.le_of_eq (h.2 hsuc)
  · obtain ⟨h1, h2, h3, h4⟩ := h.1 hs
    refine ⟨?_, h4⟩
    have hall : ∀ i ∈ List.range (attemptLoop dl inv m m 0 none).retries,
        attemptFails (dl i) = true := by
      intro i hi
      rw [List.mem_range] at hi
      exact h3 i (Nat.zero_le i) hi
    calc (List.range (attemptLoop dl inv m m 0 none).retries).countP
          (fun i => attemptFails (dl i))
        = (List.range (attemptLoop dl inv m m 0 none).retries).length :=
          List.countP_eq_length.2 hall
      _ = (attemptLoop dl inv m m 0 none).retries := List.length_range _

/-- Capability outcomes used by the C1 witness: attempt 0 raises,
attempt 1 returns a failed result, attempt 2 succeeds. -/
def dlWitness : Nat → AttemptOutcome
  | 0 => .raises "net::ERR_TIMED_OUT"
  | 1 => .returns { invoice_number := "F1", success := false,
                    error_message := some "No aparece la factura" }
  | _ => .returns { invoice_number := "F1", success := true,
                    file_path := some "./downloads/F1.txt" }

/-- Witness for C1 at a concrete input: success on the third attempt
out of four, so two failed attempts precede it. -/
theorem process_single_invoice_retries_witness :
    (processSingleInvoice dlWitness "F1" 4).retries ≤ 4
    ∧ (List.range (processSingleInvoice dlWitness "F1" 4).retries).countP
          (fun i => attemptFails (dlWitness i))
        = (processSingleInvoice dlWitness "F1" 4).retries
    ∧ attemptFails
        (dlWitness (processSingleInvoice dlWitness "F1" 4).retries)
      = false := by
  have h := process_single_invoice_retries dlWitness "F1" 4
  have hs : (processSingleInvoice dlWitness "F1" 4).success = true := by
    decide
  exact ⟨h.1, (h.2.1 hs).1, (h.2.1 hs).2⟩

/-- Mirror of the portal capability as seen by
`BaseScraper.process_invoices`: `login()` returns a boolean, and the
per-item download path is a per-invoice sequence of attempt
outcomes. -/
structure Capability where
  loginOk : Bool
  downloadInvoice : String → Nat → AttemptOutcome

/-- Synthetic result built by `process_invoices` for every invoice
when `login()` fails (src/src/scraper/base_scraper.py, lines
167-176): `success=False`, `error_message="Error de login"` (the
code's representation of an authentication failure), and `retries`
left at its dataclass default 0. -/
def loginFailResult (inv : String) : DownloadResult :=
  { invoice_number := inv
    success := false
    error_message := some "Error de login" }

/-- Mirror of `BaseScraper.process_invoices(invoice_numbers,
max_retries)` (src/src/scraper/base_scraper.py, lines 155-208).
`isLoggedIn` is the `self._is_logged_in` flag (False on a fresh
scraper). On login failure the function returns one synthetic
result per invoice, in input order, without touching the per-item
download path; otherwise each invoice goes through
`_process_single_invoice`. -/
def process_invoices (cap : Capability) (isLoggedIn : Bool)
    (invoice_numbers : List String) (max_retries : Nat) :
    List DownloadResult :=
  if !isLoggedIn && !cap.loginOk then
    invoice_numbers.map loginFailResult
  else
    invoice_numbers.map
      (fun inv => processSingleInvoice (cap.downloadInvoice inv) inv max_retries)

/-- Mirror of `MonroeScraper.process_invoices`
(src/src/scraper/monroe_scraper.py, lines 777-862), which adds two
provider-setup steps (`navigate_to_comprobantes`,
`configure_period`) between login and item processing; each failing
step short-circuits the whole batch with its own synthetic error. -/
def monroeProcessInvoices (cap : Capability) (navOk configOk : Bool)
    (isLoggedIn : Bool) (invoice_numbers : List String)
    (max_retries : Nat) : List DownloadResult :=
  if !isLoggedIn && !cap.loginOk then
    invoice_numbers.map loginFailResult
  else if !navOk then
    invoice_numbers.map (fun inv =>
      { invoice_number := inv, success := false
        error_message := some "Error navegando a Comprobantes" })
  else if !configOk then
    invoice_numbers.map (fun inv =>
      { invoice_number := inv, success := false
        error_message := some "Error configurando período" })
  else
    invoice_numbers.map
      (fun inv => processSingleInvoice (cap.downloadInvoice inv) inv max_retries)

/-- C2: when `login()` returns false on a not-yet-logged-in scraper,
`process_invoices` (base and Monroe override alike) returns exactly
one synthetic result per invoice, in input order, each with
`success=False`, the login-failure error (`"Error de login"`, the
code's authentication-failure kind) and `retries=0`; the result list
is `invoice_numbers.map loginFailResult`, which does not mention the
capability's download path, so `_process_single_invoice` is never
invoked. -/
theorem process_invoices_login_failure (cap : Capability)
    (invoice_numbers : List String) (max_retries : Nat)
    (h : cap.loginOk = false) :
    process_invoices cap false invoice_numbers max_retries
        = invoice_numbers.map loginFailResult
    ∧ monroeProcessInvoices cap true true false invoice_numbers max_retries
        = invoice_numbers.map loginFailResult
    ∧ (process_invoices cap false invoice_numbers max_retries).length
        = invoice_numbers.length
    ∧ ∀ r ∈ process_invoices cap false invoice_numbers max_retries,
        r.success = false ∧ r.error_message = some "Error de login"
          ∧ r.retries = 0 := by
  have heq : process_invoices cap false invoice_numbers max_retries
      = invoice_numbers.map loginFailResult := by
    unfold process_invoices
    rw [h]
    rfl
  have heqM : monroeProcessInvoices cap true true false invoice_numbers
      max_retries = invoice_numbers.map loginFailResult := by
    unfold monroeProcessInvoices
    rw [h]
    rfl
  refine ⟨heq, heqM, by rw [heq, List.length_map], ?_⟩
  intro r hr
  rw [heq] at hr
  obtain ⟨inv, _, rfl⟩ := List.mem_map.1 hr
  exact ⟨rfl, rfl, rfl⟩

/-- Capability whose login fails, used by the C2 witness. -/
def capLoginFail : Capability :=
  { loginOk := false
    downloadInvoice := fun _ _ => .raises "unreachable" }

/-- Witness for C2 at the spec's 5-item scenario: a failing `login()`
yields exactly 5 synthetic results in input order. -/
theorem process_invoices_login_failure_witness :
    process_invoices capLoginFail false ["1", "2", "3", "4", "5"] 4
        = ["1", "2", "3", "4", "5"].map loginFailResult
    ∧ (process_invoices capLoginFail false ["1", "2", "3", "4", "5"] 4).length
        = 5 := by
  have h := process_invoices_login_failure capLoginFail
    ["1", "2", "3", "4", "5"] 4 rfl
  exact ⟨h.1, h.2.2.1⟩

/-- Summary block of the JSON execution log built by
`save_execution_log_json`: `total = len(results)`, `successful =
sum(1 for r in results if r.success)`, `failed = sum(1 for r in
results if not r.success)`. -/
structure LogSummary where
  total : Nat
  successful : Nat
  failed : Nat
deriving DecidableEq, Repr

/-- The parts of the JSON log produced by
`BaseScraper.save_execution_log_json` (src/src/scraper/
base_scraper.py, lines 352-446) that the C3 claim speaks about:
the summary counters, the result list, and `failed_invoices`. -/
structure ExecutionLogData where
  summary : LogSummary
  results : List DownloadResult
  failed_invoices : List String
deriving DecidableEq, Repr

/-- Mirror of the `log_data` dictionary construction in
`save_execution_log_json`: counters from the result list and
`failed_invoices = [r.invoice_number for r in results if not
r.success]`. -/
def save_execution_log_json (results : List DownloadResult) :
    ExecutionLogData :=
  { summary :=
      { total := results.length
        successful := results.countP (fun r => r.success)
        failed := results.countP (fun r => !r.success) }
    results := results
    failed_invoices :=
      (results.filter (fun r => !r.success)).map (fun r => r.invoice_number) }

/-- C3: every execution log written by `save_execution_log_json`
satisfies `summary.total = len(results)`, `summary.successful +
summary.failed = summary.total`, and `failed_invoices` is exactly
the sequence of invoice numbers of the failed results in result
order. -/
theorem save_execution_log_json_invariants (results : List DownloadResult) :
    (save_execution_log_json results).summary.total = results.length
    ∧ (save_execution_log_json results).summary.successful
        + (save_execution_log_json results).summary.failed
        = (save_execution_log_json results).summary.total
    ∧ (save_execution_log_json results).failed_invoices
        = (results.filter (fun r => !r.success)).map
            (fun r => r.invoice_number) := by
  refine ⟨rfl, ?_, rfl⟩
  show results.countP (fun r => r.success)
      + results.countP (fun r => !r.success) = results.length
  induction results with
  | nil => rfl
  | cons r rs ih =>
    cases hr : r.success with
    | true =>
      simp [List.countP_cons, hr]
      omega
    | false =>
      simp [List.countP_cons, hr]
      omega

/-- Mirror of the batch chunking in `_process_with_cloud_tasks`
(src/main.py, line 166): `chunks = [invoices[i:i + BATCH_SIZE] for i
in range(0, len(invoices), BATCH_SIZE)]`. Each step takes the next
`batchSize`-slice; the Python `range` raises on step 0, so the `n =
0` guard (returning no chunks) is outside the claimed domain, which
requires a positive batch size. -/
def planBatches (batchSize : Nat) (invoices : List String) :
    List (List String) :=
  if invoices = [] ∨ batchSize = 0 then []
  else invoices.take batchSize
    :: planBatches batchSize (invoices.drop batchSize)
termination_by invoices.length
decreasing_by
  rename_i h
  push_neg at h
  rw [List.length_drop]
  have h1 : invoices.length ≠ 0 := fun hz => h.1 (List.eq_nil_of_length_eq_zero hz)
  have h2 : batchSize ≠ 0 := h.2
  omega

/-- Unfolding equation for `planBatches` in the nonempty case. -/
theorem planBatches_cons (n : Nat) (l : List String) (hl : l ≠ [])
    (hn : n ≠ 0) :
    planBatches n l = l.take n :: planBatches n (l.drop n) := by
  rw [planBatches]
  rw [if_neg]
  push_neg
  exact ⟨hl, hn⟩

/-- A chunk list is empty exactly when the input is empty (positive
batch size). -/
theorem planBatches_eq_nil_iff (n : Nat) (l : List String) (hn : n ≠ 0) :
    planBatches n l = [] ↔ l = [] := by
  constructor
  · intro h
    by_contra hl
    rw [planBatches_cons n l hl hn] at h
    exact List.cons_ne_nil _ _ h
  · intro h
    subst h
    rw [planBatches]
    simp

/-- Concatenating the planner's chunks in order reproduces the
provider's input list exactly. -/
theorem planBatches_flatten (n : Nat) (hn : 0 < n) (l : List String) :
    (planBatches n l).flatten = l := by
  generalize hk : l.length = k
  induction k using Nat.strong_induction_on generalizing l with
  | _ k ih =>
    by_cases hl : l = []
    · subst hl
      rw [planBatches]
      simp
    · rw [planBatches_cons n l hl (Nat.pos_iff_ne_zero.1 hn)]
      rw [List.flatten_cons]
      rw [ih (l.drop n).length ?_ (l.drop n) rfl]
      · exact List.take_append_drop n l
      · rw [List.length_drop]
        have h1 : l.length ≠ 0 := fun hz => hl (List.eq_nil_of_length_eq_zero hz)
        omega

/-- Every chunk the planner emits is nonempty and no longer than the
batch size. -/
theorem planBatches_size_bounds (n : Nat) (hn : 0 < n) (l : List String) :
    ∀ c ∈ planBatches n l, 0 < c.length ∧ c.length ≤ n := by
  generalize hk : l.length = k
  induction k using Nat.strong_induction_on generalizing l with
  | _ k ih =>
    intro c hc
    by_cases hl : l = []
    · subst hl
      rw [planBatches] at hc
      simp at hc
    · rw [planBatches_cons n l hl (Nat.pos_iff_ne_zero.1 hn)] at hc
      rcases List.mem_cons.1 hc with rfl | hc'
      · rw [List.length_take]
        have h1 : l.length ≠ 0 := fun hz => hl (List.eq_nil_of_length_eq_zero hz)
        constructor <;> omega
      · refine ih (l.drop n).length ?_ (l.drop n) rfl c hc'
        rw [List.length_drop]
        have h1 : l.length ≠ 0 := fun hz => hl (List.eq_nil_of_length_eq_zero hz)
        omega

/-- Every chunk except possibly the last has exactly `batchSize`
items. -/
theorem planBatches_full_chunks (n : Nat) (hn : 0 < n) (l : List String) :
    ∀ c ∈ (planBatches n l).dropLast, c.length = n := by
  generalize hk : l.length = k
  induction k using Nat.strong_induction_on generalizing l with
  | _ k ih =>
    intro c hc
    by_cases hl : l = []
    · subst hl
      rw [planBatches] at hc
      simp at hc
    · rw [planBatches_cons n l hl (Nat.pos_iff_ne_zero.1 hn)] at hc
      by_cases hrest : planBatches n (l.drop n) = []
      · rw [hrest] at hc
        simp at hc
      · rw [List.dropLast_cons_of_ne_nil hrest] at hc
        have hdrop : l.drop n ≠ [] :=
          fun hz => hrest ((planBatches_eq_nil_iff n _
            (Nat.pos_iff_ne_zero.1 hn)).2 hz)
        have hlen : n < l.length := by
          by_contra hle
          push_neg at hle
          exact hdrop (List.drop_eq_nil_of_le hle)
        rcases List.mem_cons.1 hc with rfl | hc'
        · rw [List.length_take]
          omega
        · refine ih (l.drop n).length ?_ (l.drop n) rfl c hc'
          rw [List.length_drop]
          omega

/-- C4: for every ordered per-provider invoice list and positive
batch size, the chunks produced by `_process_with_cloud_tasks`
concatenate back to the original list in order, every chunk except
possibly the last has exactly `batch_size` items, and every chunk
(including the last) has between 1 and `batch_size` items. -/
theorem plan_batches_partition (n : Nat) (l : List String) (hn : 0 < n) :
    (planBatches n l).flatten = l
    ∧ (∀ c ∈ (planBatches n l).dropLast, c.length = n)
    ∧ (∀ c ∈ planBatches n l, 1 ≤ c.length ∧ c.length ≤ n) :=
  ⟨planBatches_flatten n hn l, planBatches_full_chunks n hn l,
    planBatches_size_bounds n hn l⟩

/-- Witness for C4 at a concrete input: batch size 2 over five
invoices gives chunks that concatenate back to the input. -/
theorem plan_batches_partition_witness :
    (planBatches 2 ["a", "b", "c", "d", "e"]).flatten
        = ["a", "b", "c", "d", "e"]
    ∧ (planBatches 2 ["a", "b", "c", "d", "e"]).length = 3 := by
  have h := plan_batches_partition 2 ["a", "b", "c", "d", "e"] (by decide)
  refine ⟨h.1, ?_⟩
  have hev : planBatches 2 ["a", "b", "c", "d", "e"]
      = [["a", "b"], ["c", "d"], ["e"]] := by
    simp [planBatches]
  rw [hev]
  rfl

/-- Mirror of `UploadResult` (src/src/storage/google_drive.py): one
record per Google Drive upload. -/
structure UploadResult where
  file_name : String
  success : Bool
  drive_link : Option String := none
deriving DecidableEq, Repr

/-- Per-item detail dictionary compiled by `process_invoices_local`
(src/main.py, lines 338-356). -/
structure Detail where
  invoice_number : String
  download_success : Bool
  download_error : Option String
  upload_success : Bool
  drive_link : Option String
deriving DecidableEq, Repr

/-- Does `needle` start `hay`? (Character-level string matching used
to model Python substring containment.) -/
def charsStartWith : List Char → List Char → Bool
  | [], _ => true
  | _ :: _, [] => false
  | a :: as, b :: bs => (a == b) && charsStartWith as bs

/-- Does `needle` occur contiguously inside `hay`? -/
def charsContain (needle : List Char) : List Char → Bool
  | [] => charsStartWith needle []
  | c :: t => charsStartWith needle (c :: t) || charsContain needle t

/-- Python's `needle in hay` on strings: contiguous substring test. -/
def strIn (needle hay : String) : Bool :=
  charsContain needle.data hay.data

/-- Python truthiness of the optional `file_path` string: `None` and
`""` are falsy. -/
def fileTruthy : Option String → Bool
  | none => false
  | some s => !(s == "")

/-- Mirror of the detail-compilation loop body in
`process_invoices_local` (src/main.py, lines 340-356): the detail
starts with `download_success = download_res.success`,
`upload_success = False`, `drive_link = None`; when the download
succeeded and has a truthy file path, the first upload result whose
`file_name` is contained in the download's `file_path` contributes
its `success` flag and `drive_link` (the `break` in the loop is
`List.find?`). -/
def compileDetail (upload_results : List UploadResult)
    (download_res : DownloadResult) : Detail :=
  let matched :=
    if download_res.success && fileTruthy download_res.file_path then
      upload_results.find?
        (fun u => strIn u.file_name (download_res.file_path.getD ""))
    else none
  { invoice_number := download_res.invoice_number
    download_success := download_res.success
    download_error := download_res.error_message
    upload_success := match matched with
      | some u => u.success
      | none => false
    drive_link := match matched with
      | some u => u.drive_link
      | none => none }

/-- The `details` list of `process_invoices_local`. -/
def compileDetails (download_results : List DownloadResult)
    (upload_results : List UploadResult) : List Detail :=
  download_results.map (compileDetail upload_results)

/-- The top-level `successful` counter of `process_invoices_local`
(src/main.py, line 358): `sum(1 for d in details if
d["download_success"] and d["upload_success"])`. -/
def localSuccessfulCount (download_results : List DownloadResult)
    (upload_results : List UploadResult) : Nat :=
  (compileDetails download_results upload_results).countP
    (fun d => d.download_success && d.upload_success)

/-- The top-level `failed` counter of `process_invoices_local`
(src/main.py, line 364): `len(records) - successful`; in this path
`len(records)` equals the number of download results, one per
record. -/
def localFailedCount (download_results : List DownloadResult)
    (upload_results : List UploadResult) : Nat :=
  download_results.length
    - localSuccessfulCount download_results upload_results

/-- Successful download whose upload fails, used against C5. -/
def dlC5 : List DownloadResult :=
  [{ invoice_number := "20057036", success := true,
     file_path := some "./downloads/20057036.txt" }]

/-- Failed upload for the file of `dlC5`. -/
def ulC5 : List UploadResult :=
  [{ file_name := "20057036.txt", success := false }]

/-- Counterexample to C5 as stated: with one successful download and
a failed upload of its file, the per-item detail still carries
`download_success = true`, but the returned counters report the item
as failed — `successful = 0` and `failed = 1` — because the
top-level `successful` counter of `process_invoices_local` requires
`download_success and upload_success`. So the result is not
"reported as a successful download in the ... counters regardless of
upload outcome". -/
theorem upload_failure_counter_counterexample :
    (compileDetails dlC5 ulC5).map (fun d => d.download_success) = [true]
    ∧ localSuccessfulCount dlC5 ulC5 = 0
    ∧ localFailedCount dlC5 ulC5 = 1
    ∧ ¬ localSuccessfulCount dlC5 ulC5 = 1 := by
  refine ⟨?_, rfl, rfl, ?_⟩
  · rfl
  · decide

/-- C5 (amended): an upload failure never retroactively changes a
successful download's per-item flag — for any upload results the
compiled details carry `download_success` equal to the download's own
`success`, independent of the uploads — but the top-level `successful`
counter counts an item only when both download and upload succeeded,
and `failed` is the remainder, so an item whose upload failed is
counted as failed there. -/
theorem upload_independence_of_download_flag
    (download_results : List DownloadResult)
    (upload_results upload_results' : List UploadResult) :
    (compileDetails download_results upload_results).map
        (fun d => d.download_success)
      = download_results.map (fun r => r.success)
    ∧ (compileDetails download_results upload_results).map
        (fun d => d.download_success)
      = (compileDetails download_results upload_results').map
          (fun d => d.download_success)
    ∧ localSuccessfulCount download_results upload_results
        = (compileDetails download_results upload_results).countP
            (fun d => d.download_success && d.upload_success)
    ∧ localFailedCount download_results upload_results
        = download_results.length
          - localSuccessfulCount download_results upload_results := by
  have hmap : ∀ ul : List UploadResult,
      (compileDetails download_results ul).map (fun d => d.download_success)
        = download_results.map (fun r => r.success) := by
    intro ul
    unfold compileDetails
    rw [List.map_map]
    rfl
  exact ⟨hmap upload_results,
    (hmap upload_results).trans (hmap upload_results').symm, rfl, rfl⟩

/-- C8: when a download succeeded with a truthy (non-empty) file
path and `find?` locates the first upload result whose recorded file
name is contained in that file path, the compiled detail carries that
upload's success flag and drive link. -/
theorem upload_match_detail (upload_results : List UploadResult)
    (d : DownloadResult) (fp : String) (u : UploadResult)
    (hs : d.success = true) (hfp : d.file_path = some fp) (hne : fp ≠ "")
    (hfind : upload_results.find? (fun v => strIn v.file_name fp) = some u) :
    (compileDetail upload_results d).upload_success = u.success
    ∧ (compileDetail upload_results d).drive_link = u.drive_link := by
  have hcond : (d.success && fileTruthy d.file_path) = true := by
    rw [hs, hfp]
    simp [fileTruthy, hne]
  have hget : d.file_path.getD "" = fp := by
    rw [hfp]
    rfl
  unfold compileDetail
  rw [hcond]
  simp only [if_true, hget, hfind]
  exact ⟨trivial, trivial⟩

/-- The spec's concrete matching scenario, as a download result. -/
def dC8 : DownloadResult :=
  { invoice_number := "20057036", success := true,
    file_path := some "/tmp/20057036.txt" }

/-- The spec's concrete matching scenario, as an upload result. -/
def uC8 : UploadResult :=
  { file_name := "20057036.txt", success := true, drive_link := some "L" }

/-- Witness for C8 at the spec's scenario: file path
"/tmp/20057036.txt" plus upload `{file_name: "20057036.txt",
success: true, link: "L"}` produces a detail with
`upload_success = true` and `drive_link = "L"`. -/
theorem upload_match_detail_witness :
    (compileDetail [uC8] dC8).upload_success = true
    ∧ (compileDetail [uC8] dC8).drive_link = some "L" := by
  have h := upload_match_detail [uC8] dC8 "/tmp/20057036.txt" uC8
    rfl rfl (by decide) (by decide)
  exact ⟨h.1.trans rfl, h.2.trans rfl⟩

/-- The methods defined on class `GCSUploader`
(src/src/storage/gcs.py, lines 25-222): `__init__`, `initialize`,
`upload_file`, `upload_string`, `list_files` — and nothing else. -/
def gcsUploaderMethods : List String :=
  ["__init__", "initialize", "upload_file", "upload_string", "list_files"]

/-- Python attribute lookup on an object: calling a method raises
`AttributeError` unless the class defines it. -/
def callMethod (methods : List String) (attr : String) :
    Except String Unit :=
  if methods.contains attr then .ok ()
  else .error ("AttributeError: " ++ attr)

/-- Responses distinguished by the C6 claim: a report (200), a 400
for a malformed date, or the `except` branch's error response
(500). -/
inductive ApiResponse where
  | report
  | badRequest
  | serverError
deriving DecidableEq, Repr

/-- Mirror of the `/api/logs/folders` handler `list_log_folders`
(src/main.py, lines 406-433): inside the `try` it instantiates
`GCSUploader` and calls `uploader.list_log_folders()`; any exception
lands in the `except` branch returning the 500 error response. -/
def listLogFoldersHandler : ApiResponse :=
  match callMethod gcsUploaderMethods "list_log_folders" with
  | .ok _ => .report
  | .error _ => .serverError

/-- The handler's date validation: `re.match(r'^\d{4}-\d{2}-\d{2}$',
date)` (ASCII digits). -/
def isValidDateFormat (s : String) : Bool :=
  match s.data with
  | [a, b, c, d, e, f, g, h, i, j] =>
      a.isDigit && b.isDigit && c.isDigit && d.isDigit && (e == '-')
        && f.isDigit && g.isDigit && (h == '-') && i.isDigit && j.isDigit
  | _ => false

/-- Mirror of the `/api/logs/<date>` handler `get_logs_by_date`
(src/main.py, lines 436-485): a malformed date returns 400;
otherwise the `try` block calls `uploader.get_logs_by_date(date)`
and any exception lands in the 500 `except` branch. -/
def getLogsByDateHandler (date : String) : ApiResponse :=
  if !(isValidDateFormat date) then .badRequest
  else match callMethod gcsUploaderMethods "get_logs_by_date" with
    | .ok _ => .report
    | .error _ => .serverError

/-- C6: `GCSUploader` defines neither `list_log_folders` nor
`get_logs_by_date`, so the `/api/logs/folders` handler and — for
every well-formed `YYYY-MM-DD` date — the `/api/logs/<date>` handler
take the exception branch and return the 500 error response instead
of a report. -/
theorem consolidated_report_endpoints_500 :
    gcsUploaderMethods.contains "list_log_folders" = false
    ∧ gcsUploaderMethods.contains "get_logs_by_date" = false
    ∧ listLogFoldersHandler = .serverError
    ∧ ∀ date : String, isValidDateFormat date = true →
        getLogsByDateHandler date = .serverError := by
  refine ⟨by decide, by decide, by decide, ?_⟩
  intro date hdate
  unfold getLogsByDateHandler
  rw [hdate]
  rfl

/-- Witness for C6 at the concrete date "2026-01-16". -/
theorem consolidated_report_endpoints_500_witness :
    isValidDateFormat "2026-01-16" = true
    ∧ getLogsByDateHandler "2026-01-16" = .serverError := by
  have h := consolidated_report_endpoints_500
  exact ⟨by decide, h.2.2.2 "2026-01-16" (by decide)⟩

/-- Summary dictionary of a persisted per-batch log as the
consolidation code reads it: every field accessed through `.get`
with a default, so any field may be missing. -/
structure RawSummary where
  total : Option Nat := none
  successful : Option Nat := none
  failed : Option Nat := none
deriving DecidableEq, Repr

/-- A persisted per-batch log as read back by `get_logs_by_date`:
`log.get("summary", {})` and `log.get("failed_invoices", [])`
tolerate missing fields. -/
structure RawLog where
  summary : Option RawSummary := none
  failed_invoices : Option (List String) := none
deriving DecidableEq, Repr

/-- `log.get("summary", {}).get("total", 0)`. -/
def logTotal (l : RawLog) : Nat :=
  ((l.summary.getD {}).total).getD 0

/-- `log.get("summary", {}).get("successful", 0)`. -/
def logSuccessful (l : RawLog) : Nat :=
  ((l.summary.getD {}).successful).getD 0

/-- `log.get("summary", {}).get("failed", 0)`. -/
def logFailed (l : RawLog) : Nat :=
  ((l.summary.getD {}).failed).getD 0

/-- `log.get("failed_invoices", [])`. -/
def logFailedInvoices (l : RawLog) : List String :=
  l.failed_invoices.getD []

/-- The consolidated report built by `get_logs_by_date`
(src/main.py, lines 461-481). -/
structure ConsolidatedReport where
  batches_count : Nat
  total : Nat
  successful : Nat
  failed : Nat
  failed_invoices : List String
deriving DecidableEq, Repr

/-- Mirror of the merge in `get_logs_by_date`: summed totals over the
fetched logs and the concatenation of their `failed_invoices`
collections, in log order. -/
def consolidateLogs (logs : List RawLog) : ConsolidatedReport :=
  { batches_count := logs.length
    total := (logs.map logTotal).sum
    successful := (logs.map logSuccessful).sum
    failed := (logs.map logFailed).sum
    failed_invoices := (logs.map logFailedInvoices).flatten }

/-- C7: the merge producing the consolidated report is a pure
function of the fetched log list — equal log lists give identical
reports, so merging the same set twice yields identical output — and
it consumes the list homomorphically: on a concatenation of log
lists the summed counters add and the failed-invoice collections
concatenate, so the output depends on nothing besides the list. -/
theorem consolidate_logs_pure (logs1 logs2 : List RawLog)
    (h : logs1 = logs2) :
    consolidateLogs logs1 = consolidateLogs logs2
    ∧ (consolidateLogs (logs1 ++ logs2)).total
        = (consolidateLogs logs1).total + (consolidateLogs logs2).total
    ∧ (consolidateLogs (logs1 ++ logs2)).successful
        = (consolidateLogs logs1).successful
          + (consolidateLogs logs2).successful
    ∧ (consolidateLogs (logs1 ++ logs2)).failed
        = (consolidateLogs logs1).failed + (consolidateLogs logs2).failed
    ∧ (consolidateLogs (logs1 ++ logs2)).failed_invoices
        = (consolidateLogs logs1).failed_invoices
          ++ (consolidateLogs logs2).failed_invoices := by
  subst h
  refine ⟨rfl, ?_, ?_, ?_, ?_⟩
  · simp [consolidateLogs]
  · simp [consolidateLogs]
  · simp [consolidateLogs]
  · simp [consolidateLogs]

/-- Summary of the full log in the C7 witness (the other witness
logs are incomplete: one misses its summary, one everything). -/
def summaryC7 : RawSummary :=
  { total := some 5, successful := some 3, failed := some 2 }

/-- Concrete log list for the C7 witness. -/
def logsC7 : List RawLog :=
  [{ summary := some summaryC7, failed_invoices := some ["10", "11"] },
   { failed_invoices := some ["12"] },
   {}]

/-- Witness for C7: merging the same concrete log list twice yields
identical output, and its counters are the sums over the list. -/
theorem consolidate_logs_pure_witness :
    consolidateLogs logsC7 = consolidateLogs logsC7
    ∧ (consolidateLogs (logsC7 ++ logsC7)).total
        = (consolidateLogs logsC7).total
          + (consolidateLogs logsC7).total := by
  have h := consolidate_logs_pure logsC7 logsC7 rfl
  exact ⟨h.1, h.2.1⟩

/-- Python `str.lower()` modelled character-wise (exact on the ASCII
provider names the code handles). -/
def pyLower (s : String) : String :=
  String.mk (s.data.map Char.toLower)

/-- Python `str.strip()`: drop leading and trailing whitespace. -/
def pyStrip (s : String) : String :=
  String.mk
    (((s.data.dropWhile Char.isWhitespace).reverse.dropWhile
      Char.isWhitespace).reverse)

/-- Python `str.replace(" ", "_")`: the pattern is a single
character, so this is a character map. -/
def pySpacesToUnderscores (s : String) : String :=
  String.mk (s.data.map (fun c => if c == ' ' then '_' else c))

/-- The alias table `mappings` of `_normalize_provider_name`
(src/src/utils/excel_reader.py, lines 169-175), in insertion order
(Python dict iteration order). -/
def providerMappings : List (String × String) :=
  [("suizo", "suizo"), ("suizo argentina", "suizo"),
   ("del sud", "del_sud"), ("delsud", "del_sud"), ("monroe", "monroe")]

/-- Mirror of `ExcelReader._normalize_provider_name`
(src/src/utils/excel_reader.py, lines 156-182): lowercase and strip
the provider, return the alias of the first table key contained in
it (`if key in provider_lower`), else the cleaned name with spaces
replaced by underscores. -/
def normalizeProviderName (provider : String) : String :=
  let provider_lower := pyStrip (pyLower provider)
  match providerMappings.find? (fun kv => strIn kv.1 provider_lower) with
  | some kv => kv.2
  | none => pySpacesToUnderscores provider_lower

/-- C9: a provider string none of whose lowercased-stripped form's
substrings match an alias-table key is assigned the lowercased,
whitespace-stripped, spaces-to-underscores key — the total function
`normalizeProviderName` never errors. -/
theorem normalize_unknown_provider (provider : String)
    (h : providerMappings.all
      (fun kv => !(strIn kv.1 (pyStrip (pyLower provider)))) = true) :
    normalizeProviderName provider
      = pySpacesToUnderscores (pyStrip (pyLower provider)) := by
  have hnone : providerMappings.find?
      (fun kv => strIn kv.1 (pyStrip (pyLower provider))) = none := by
    rw [List.find?_eq_none]
    intro kv hkv
    have := (List.all_eq_true.1 h) kv hkv
    simp only [Bool.not_eq_true'] at this
    simp [this]
  unfold normalizeProviderName
  simp only [hnone]

/-- Witness for C9 at the spec's scenario: the unknown provider
"ACME" is assigned the key "acme". -/
theorem normalize_unknown_provider_witness :
    normalizeProviderName "ACME" = "acme" := by
  have h := normalize_unknown_provider "ACME" (by decide)
  rw [h]
  decide

/-- A browser-context cookie as `save_cookies` reads it: only the
optional `expires` timestamp matters (seconds; playwright uses `-1`
for session cookies). Timestamps are modelled as integers. -/
structure Cookie where
  expires : Option Int := none
deriving DecidableEq, Repr

/-- The `cookie_expires` list built in `save_cookies`
(src/src/utils/session_manager.py, lines 53-60): keep `c.get
("expires")` when present, truthy and `> 0`. -/
def cookieExpiries (cookies : List Cookie) : List Int :=
  cookies.filterMap (fun c =>
    match c.expires with
    | some e => if 0 < e then some e else none
    | none => none)

/-- Seconds in the 7-day conservative fallback window
(`timedelta(days=7)`). -/
def sevenDays : Int := 7 * 86400

/-- Mirror of the `expires_at` computation in `save_cookies`
(src/src/utils/session_manager.py, lines 62-67): `max(cookie_expires)`
when the list is nonempty, else `now + timedelta(days=7)`. -/
def computeExpiresAt (now : Int) (cookies : List Cookie) : Int :=
  match cookieExpiries cookies with
  | [] => now + sevenDays
  | e :: es => es.foldl max e

/-- Folding `max` over a list returns one of its elements. -/
theorem foldl_max_mem (e : Int) (es : List Int) :
    es.foldl max e ∈ e :: es := by
  induction es generalizing e with
  | nil => exact List.mem_singleton.2 rfl
  | cons a t ih =>
    have h := ih (max e a)
    rw [List.foldl_cons]
    rcases List.mem_cons.1 h with hm | hm
    · rcases max_choice e a with hc | hc
      · rw [hm, hc]
        exact List.mem_cons_self _ _
      · rw [hm, hc]
        exact List.mem_cons_of_mem _ (List.mem_cons_self _ _)
    · exact List.mem_cons_of_mem _ (List.mem_cons_of_mem _ hm)

/-- Folding `max` over a list bounds every element. -/
theorem le_foldl_max (e : Int) (es : List Int) :
    ∀ x ∈ e :: es, x ≤ es.foldl max e := by
  induction es generalizing e with
  | nil =>
    intro x hx
    rw [List.mem_singleton.1 hx]
    exact le_refl _
  | cons a t ih =>
    intro x hx
    rw [List.foldl_cons]
    rcases List.mem_cons.1 hx with rfl | hx'
    · exact le_trans (le_max_left x a) (ih (max x a) _ (List.mem_cons_self _ _))
    · rcases List.mem_cons.1 hx' with rfl | hx'' <;>
        [exact le_trans (le_max_right e x)
          (ih (max e x) _ (List.mem_cons_self _ _));
         exact ih (max e a) x (List.mem_cons_of_mem _ hx'')]

/-- C10: the stored `expires_at` is the maximum positive
cookie-expiry timestamp when at least one exists — it is one of the
positive cookie expiries and bounds all of them — and otherwise it is
the save time plus the fixed 7-day conservative window. -/
theorem save_cookies_expiry (now : Int) (cookies : List Cookie) :
    (cookieExpiries cookies ≠ [] →
      computeExpiresAt now cookies ∈ cookieExpiries cookies
      ∧ ∀ e ∈ cookieExpiries cookies, e ≤ computeExpiresAt now cookies)
    ∧ (cookieExpiries cookies = [] →
      computeExpiresAt now cookies = now + sevenDays) := by
  constructor
  · intro hne
    cases hce : cookieExpiries cookies with
    | nil => exact absurd hce hne
    | cons e es =>
      have hunf : computeExpiresAt now cookies = es.foldl max e := by
        unfold computeExpiresAt
        rw [hce]
      rw [hunf]
      exact ⟨foldl_max_mem e es, fun x hx => le_foldl_max e es x hx⟩
  · intro hnil
    unfold computeExpiresAt
    rw [hnil]

/-- Cookies for the C10 witness: a session cookie (`expires = -1`),
no expiry, and two positive expiries. -/
def cookiesC10 : List Cookie :=
  [{ expires := some (-1) }, {}, { expires := some 1700000000 },
   { expires := some 1800000000 }]

/-- Witness for C10 at concrete inputs: with positive expiries
present the stored expiry is their maximum; with none, it is save
time plus 7 days. -/
theorem save_cookies_expiry_witness :
    computeExpiresAt 1000 cookiesC10 ∈ cookieExpiries cookiesC10
    ∧ computeExpiresAt 1000 [{ expires := some (-1) }, {}]
        = 1000 + sevenDays := by
  constructor
  · exact (save_cookies_expiry 1000 cookiesC10).1 (by decide) |>.1
  · exact (save_cookies_expiry 1000
      [{ expires := some (-1) }, {}]).2 (by decide)

end ArgTxt
